import Mathlib

/-!
Verification development for `src/api/database.py` (BioCloudLabs).

The Python file wires four async functions around one shared `asyncpg`
connection held as the attribute `app.db` of a Quart application:

  * `init_db` — connects; catches only `asyncpg.exceptions.PostgresError`.
  * `close_db_connection` — `await app.db.close()`, no exception handling.
  * `create_example_table` — `CREATE TABLE IF NOT EXISTS mytable (...)`;
    catches only `asyncpg.exceptions.DuplicateTableError`.
  * `insert_data` — parameterized `INSERT`; catches `PostgresError`.
  * `get_data` — `SELECT * FROM mytable`; catches `PostgresError`.

The shallow embedding below models the Python state (whether `app.db`
was ever set, plus the external database's state), the exceptions that
can cross the functions' `try` blocks, and each function's control flow.
Database round-trips may also fail for environmental reasons
(connectivity loss, permissions, ...); such failures are modelled by an
injected `PgFault` argument, since the driver surfaces them as
`PostgresError` values to the `except` clauses of the source.
-/

/-- A row of `mytable`: `id SERIAL PRIMARY KEY, name VARCHAR(255), age INT`. -/
structure Record where
  id : Nat
  name : String
  age : Int
deriving DecidableEq

/-- The state of `mytable`: its rows plus the next value of the `SERIAL`
sequence backing the `id` column. -/
structure Table where
  rows : List Record
  nextId : Nat
deriving DecidableEq

/-- The external database state: `none` while `mytable` does not exist. -/
structure DBState where
  table : Option Table
deriving DecidableEq

/-- Process-wide state: whether the attribute `app.db` has been set
(`init_db` succeeded), and the external database it points to. -/
structure World where
  db : Option Unit
  dbState : DBState
deriving DecidableEq

/-- Kinds of `asyncpg.exceptions.PostgresError` relevant to the source:
the one kind it special-cases (`DuplicateTableError`), the kinds its own
SQL can produce, and a catch-all for every other server error. -/
inductive PgErrorKind where
  | duplicateTable
  | undefinedTable
  | stringDataRightTruncation
  | otherPg (code : String)
deriving DecidableEq

/-- Exceptions that can cross the `try` blocks of the source:
`asyncpg.exceptions.PostgresError` (with its kind and message text),
Python's `AttributeError` (raised when `app.db` was never set), and
`OSError` (raised by `asyncpg.connect` when the host is unreachable;
not a subclass of `PostgresError`). -/
inductive Exc where
  | pgError (kind : PgErrorKind) (msg : String)
  | attributeError (msg : String)
  | osError (msg : String)
deriving DecidableEq

/-- An environmental failure of one database round-trip, surfaced by the
driver as a `PostgresError` with this kind and message. -/
structure PgFault where
  kind : PgErrorKind
  msg : String
deriving DecidableEq

/-- Values the Python functions return: the `message` and `error` dicts,
or the list of rows `fetch` yields. -/
inductive ApiResult where
  | message (s : String)
  | error (s : String)
  | rows (rs : List Record)
deriving DecidableEq

/-- The message of the `AttributeError` raised when `app.db` is read
before it was ever assigned. -/
def attrDbMsg : String := "Quart object has no attribute db"

/-- Message of the `UndefinedTableError` raised by the server when a
statement references `mytable` before it exists. -/
def undefinedTableMsg : String := "relation \"mytable\" does not exist"

/-- Message of the `StringDataRightTruncationError` raised by the server
when `name` exceeds the `VARCHAR(255)` bound. -/
def truncMsg : String := "value too long for type character varying(255)"

/-- `await app.db.execute("CREATE TABLE IF NOT EXISTS mytable ...")`:
raises `AttributeError` if `app.db` was never set; raises the injected
fault if the round-trip fails; otherwise `IF NOT EXISTS` semantics —
create the table when absent, succeed without change when present. -/
def appDb_execute_create (w : World) (fault : Option PgFault) : Except Exc World :=
  match w.db with
  | none => Except.error (Exc.attributeError attrDbMsg)
  | some _ =>
    match fault with
    | some f => Except.error (Exc.pgError f.kind f.msg)
    | none =>
      match w.dbState.table with
      | none => Except.ok { w with dbState := { table := some { rows := [], nextId := 1 } } }
      | some _ => Except.ok w

/-- `await app.db.execute("INSERT INTO mytable (name, age) VALUES ($1, $2)", name, age)`:
raises `AttributeError` if `app.db` was never set; raises the injected
fault if the round-trip fails; errors if `mytable` does not exist or
`name` exceeds `VARCHAR(255)`; otherwise appends the row with the next
`SERIAL` id and advances the sequence. -/
def appDb_execute_insert (w : World) (fault : Option PgFault) (name : String) (age : Int) :
    Except Exc World :=
  match w.db with
  | none => Except.error (Exc.attributeError attrDbMsg)
  | some _ =>
    match fault with
    | some f => Except.error (Exc.pgError f.kind f.msg)
    | none =>
      match w.dbState.table with
      | none => Except.error (Exc.pgError PgErrorKind.undefinedTable undefinedTableMsg)
      | some t =>
        if name.length ≤ 255 then
          Except.ok { w with dbState :=
            { table := some
                { rows := t.rows ++ [{ id := t.nextId, name := name, age := age }],
                  nextId := t.nextId + 1 } } }
        else
          Except.error (Exc.pgError PgErrorKind.stringDataRightTruncation truncMsg)

/-- `await app.db.fetch("SELECT * FROM mytable")`: raises
`AttributeError` if `app.db` was never set; raises the injected fault if
the round-trip fails; errors if `mytable` does not exist; otherwise
returns every row. -/
def appDb_fetch (w : World) (fault : Option PgFault) : Except Exc (List Record) :=
  match w.db with
  | none => Except.error (Exc.attributeError attrDbMsg)
  | some _ =>
    match fault with
    | some f => Except.error (Exc.pgError f.kind f.msg)
    | none =>
      match w.dbState.table with
      | none => Except.error (Exc.pgError PgErrorKind.undefinedTable undefinedTableMsg)
      | some t => Except.ok t.rows

/-- Outcome of the `asyncpg.connect(...)` call inside `init_db`:
success, a driver-level `PostgresError` (e.g. invalid password), or a
non-Postgres failure (e.g. `OSError` when the host is unreachable). -/
inductive ConnectOutcome where
  | success
  | pgFailure (msg : String)
  | osFailure (msg : String)
deriving DecidableEq

/-- `init_db` (database.py lines 6-16): `try: app.db = await
asyncpg.connect(...); print(...) except asyncpg.exceptions.PostgresError
as e: print(...)`. On success the handle is set; a `PostgresError` is
caught and printed, leaving the world unchanged; any other exception
(such as `OSError`) matches no `except` clause and propagates. -/
def init_db (w : World) (o : ConnectOutcome) : Except Exc Unit × World :=
  match o with
  | ConnectOutcome.success => (Except.ok (), { w with db := some () })
  | ConnectOutcome.pgFailure _ => (Except.ok (), w)
  | ConnectOutcome.osFailure m => (Except.error (Exc.osError m), w)

/-- `close_db_connection` (database.py lines 22-24): `await
app.db.close()` with no exception handling; reading `app.db` when it was
never set raises `AttributeError`. -/
def close_db_connection (w : World) : Except Exc Unit × World :=
  match w.db with
  | none => (Except.error (Exc.attributeError attrDbMsg), w)
  | some _ => (Except.ok (), w)

/-- `create_example_table` (database.py lines 26-39): executes the
`CREATE TABLE IF NOT EXISTS` statement and returns the success message;
its only `except` clause catches `DuplicateTableError` and returns the
already-exists message; every other exception propagates. -/
def create_example_table (w : World) (fault : Option PgFault) : Except Exc ApiResult × World :=
  match appDb_execute_create w fault with
  | Except.ok w1 => (Except.ok (ApiResult.message "Example table created successfully"), w1)
  | Except.error (Exc.pgError PgErrorKind.duplicateTable _) =>
      (Except.ok (ApiResult.message "Table already exists"), w)
  | Except.error e => (Except.error e, w)

/-- `insert_data` (database.py lines 41-51): executes the parameterized
`INSERT` and returns the success message; `except
asyncpg.exceptions.PostgresError as e` returns the error dict embedding
the driver message; every other exception propagates. -/
def insert_data (w : World) (fault : Option PgFault) (name : String) (age : Int) :
    Except Exc ApiResult × World :=
  match appDb_execute_insert w fault name age with
  | Except.ok w1 => (Except.ok (ApiResult.message "Data inserted successfully"), w1)
  | Except.error (Exc.pgError _ m) =>
      (Except.ok (ApiResult.error ("Error inserting data: " ++ m)), w)
  | Except.error e => (Except.error e, w)

/-- `get_data` (database.py lines 53-58): fetches every row of `mytable`
and returns them; `except asyncpg.exceptions.PostgresError as e` returns
the error dict embedding the driver message; every other exception
propagates. -/
def get_data (w : World) (fault : Option PgFault) : Except Exc ApiResult × World :=
  match appDb_fetch w fault with
  | Except.ok rs => (Except.ok (ApiResult.rows rs), w)
  | Except.error (Exc.pgError _ m) =>
      (Except.ok (ApiResult.error ("Error fetching data: " ++ m)), w)
  | Except.error e => (Except.error e, w)

/-- Well-formedness of `mytable` as Postgres maintains it: every
existing `id` is below the `SERIAL` sequence value, and the `id`s are
pairwise distinct (primary key). -/
def Table.WF (t : Table) : Prop :=
  (∀ r ∈ t.rows, r.id < t.nextId) ∧ (t.rows.map Record.id).Nodup

instance (t : Table) : Decidable t.WF := by
  unfold Table.WF
  infer_instance

/-- A sequence of `insert_data` calls on a working connection, each
required to succeed (return the success message); `none` when any call
fails or raises. -/
def insertAll (w : World) (ps : List (String × Int)) : Option World :=
  match ps with
  | [] => some w
  | (n, a) :: rest =>
    match insert_data w none n a with
    | (Except.ok (ApiResult.message _), w1) => insertAll w1 rest
    | _ => none

/-- World in which `init_db` never succeeded: `app.db` unset, `mytable`
absent. -/
def wUnset : World := { db := none, dbState := { table := none } }

/-- World with a working connection and an existing empty `mytable`. -/
def wReady : World := { db := some (), dbState := { table := some { rows := [], nextId := 1 } } }

/-- World with a working connection but no `mytable` yet. -/
def wNoTable : World := { db := some (), dbState := { table := none } }

/-- Claim C1, as stated, is false at a concrete input: with the handle
never set (`wUnset`), each of the three operations propagates an
unhandled `AttributeError` (the `except` clauses match only
`asyncpg.exceptions.PostgresError`), so none returns an error payload. -/
theorem C1_counterexample :
    (create_example_table wUnset none).1 = Except.error (Exc.attributeError attrDbMsg) ∧
    (insert_data wUnset none "Alice" 30).1 = Except.error (Exc.attributeError attrDbMsg) ∧
    (get_data wUnset none).1 = Except.error (Exc.attributeError attrDbMsg) := by
  exact ⟨rfl, rfl, rfl⟩

/-- Claim C1 amended: if the database connection was never established
(the shared handle `app.db` is unset), then each of the three operations
raises an unhandled `AttributeError` when called — it does not hang and
does not return an error payload. -/
theorem C1_unset_handle_ops_raise (w : World) (fault : Option PgFault)
    (name : String) (age : Int) (h : w.db = none) :
    (create_example_table w fault).1 = Except.error (Exc.attributeError attrDbMsg) ∧
    (insert_data w fault name age).1 = Except.error (Exc.attributeError attrDbMsg) ∧
    (get_data w fault).1 = Except.error (Exc.attributeError attrDbMsg) := by
  unfold create_example_table insert_data get_data
    appDb_execute_create appDb_execute_insert appDb_fetch
  rw [h]
  exact ⟨rfl, rfl, rfl⟩

/-- Witness for C1's amended theorem at a concrete world. -/
theorem C1_witness :
    wUnset.db = none ∧
    ((create_example_table wUnset none).1 = Except.error (Exc.attributeError attrDbMsg) ∧
     (insert_data wUnset none "Bob" 25).1 = Except.error (Exc.attributeError attrDbMsg) ∧
     (get_data wUnset none).1 = Except.error (Exc.attributeError attrDbMsg)) :=
  ⟨rfl, C1_unset_handle_ops_raise wUnset none "Bob" 25 rfl⟩

/-- Claim C2, as stated, is false at a concrete input: a database error
other than duplicate-table (here a permission error) raised during
`create_example_table` is not caught — the function's only `except`
clause matches `DuplicateTableError` — so it is re-raised instead of
being returned as an error payload. -/
theorem C2_counterexample :
    (create_example_table wReady
        (some { kind := PgErrorKind.otherPg "42501", msg := "permission denied for schema public" })).1
      = Except.error (Exc.pgError (PgErrorKind.otherPg "42501") "permission denied for schema public") := by
  exact rfl

/-- Claim C2 amended: with the handle set, `insert_data` and `get_data`
catch every database error and return it as an error-payload value;
`create_example_table` catches only the duplicate-table kind — which it
converts into a message payload, not an error payload — and re-raises
every other database error. -/
theorem C2_catch_policy (w : World) (k : PgErrorKind) (m name : String) (age : Int)
    (h : w.db = some ()) :
    (insert_data w (some ⟨k, m⟩) name age).1
      = Except.ok (ApiResult.error ("Error inserting data: " ++ m)) ∧
    (get_data w (some ⟨k, m⟩)).1
      = Except.ok (ApiResult.error ("Error fetching data: " ++ m)) ∧
    (create_example_table w (some ⟨PgErrorKind.duplicateTable, m⟩)).1
      = Except.ok (ApiResult.message "Table already exists") ∧
    (k ≠ PgErrorKind.duplicateTable →
      (create_example_table w (some ⟨k, m⟩)).1 = Except.error (Exc.pgError k m)) := by
  unfold insert_data get_data create_example_table
    appDb_execute_insert appDb_fetch appDb_execute_create
  rw [h]
  refine ⟨rfl, rfl, rfl, ?hk⟩
  intro hk
  cases k with
  | duplicateTable => exact absurd rfl hk
  | undefinedTable => rfl
  | stringDataRightTruncation => rfl
  | otherPg code => rfl

/-- Witness for C2's amended theorem at a concrete world and error. -/
theorem C2_witness :
    wReady.db = some () ∧
    (create_example_table wReady (some ⟨PgErrorKind.otherPg "08006", "connection failure"⟩)).1
      = Except.error (Exc.pgError (PgErrorKind.otherPg "08006") "connection failure") ∧
    (insert_data wReady (some ⟨PgErrorKind.otherPg "08006", "connection failure"⟩) "Alice" 30).1
      = Except.ok (ApiResult.error ("Error inserting data: " ++ "connection failure")) :=
  ⟨rfl,
   (C2_catch_policy wReady (PgErrorKind.otherPg "08006") "connection failure" "Alice" 30 rfl).2.2.2
     (by decide),
   (C2_catch_policy wReady (PgErrorKind.otherPg "08006") "connection failure" "Alice" 30 rfl).1⟩

/-- Claim C3, as stated, is false at a concrete input: a non-Postgres
connection failure (an `OSError`, as raised for an unreachable host)
matches no `except` clause of `init_db` and propagates out of it instead
of being caught and printed. -/
theorem C3_counterexample :
    init_db wUnset (ConnectOutcome.osFailure "connection refused") =
      (Except.error (Exc.osError "connection refused"), wUnset) := by
  exact rfl

/-- Claim C3 amended: `init_db` catches, reports and returns normally —
leaving `app.db` unset — only for driver-level `PostgresError`
connection failures; any other kind of connection failure (such as
`OSError` for an unreachable host) propagates out of `init_db`
unhandled. -/
theorem C3_init_db_failure_policy (w : World) (m : String) (h : w.db = none) :
    init_db w (ConnectOutcome.pgFailure m) = (Except.ok (), w) ∧
    (init_db w (ConnectOutcome.pgFailure m)).2.db = none ∧
    init_db w (ConnectOutcome.osFailure m) = (Except.error (Exc.osError m), w) :=
  ⟨rfl, h, rfl⟩

/-- Witness for C3's amended theorem at a concrete world and message. -/
theorem C3_witness :
    wUnset.db = none ∧
    init_db wUnset (ConnectOutcome.pgFailure "connect failed") = (Except.ok (), wUnset) ∧
    (init_db wUnset (ConnectOutcome.pgFailure "connect failed")).2.db = none ∧
    init_db wUnset (ConnectOutcome.osFailure "connect failed")
      = (Except.error (Exc.osError "connect failed"), wUnset) :=
  ⟨rfl, C3_init_db_failure_policy wUnset "connect failed" rfl⟩

/-- The table produced by the `CREATE TABLE IF NOT EXISTS` statement:
the existing table when there is one, otherwise a fresh empty table with
the `SERIAL` sequence at 1. -/
def ensureTable : Option Table → Table
  | none => { rows := [], nextId := 1 }
  | some t => t

/-- On a working connection, `create_example_table` always returns the
creation success message and leaves the table present. -/
theorem create_example_table_ok (w : World) (h : w.db = some ()) :
    create_example_table w none =
      (Except.ok (ApiResult.message "Example table created successfully"),
       { w with dbState := { table := some (ensureTable w.dbState.table) } }) := by
  obtain ⟨db, ⟨tab⟩⟩ := w
  cases db with
  | none => simp at h
  | some u =>
    cases tab with
    | none => rfl
    | some t => rfl

/-- On a working connection with `mytable` present, `get_data` returns
every row and leaves the world unchanged. -/
theorem get_data_ok (w : World) (t : Table) (hdb : w.db = some ())
    (ht : w.dbState.table = some t) :
    get_data w none = (Except.ok (ApiResult.rows t.rows), w) := by
  unfold get_data appDb_fetch
  rw [hdb, ht]

/-- On a working connection with `mytable` present and `name` within the
`VARCHAR(255)` bound, `insert_data` succeeds and appends the row with
the next `SERIAL` id. -/
theorem insert_data_success (w : World) (t : Table) (n : String) (a : Int)
    (hdb : w.db = some ()) (ht : w.dbState.table = some t) (hlen : n.length ≤ 255) :
    insert_data w none n a =
      (Except.ok (ApiResult.message "Data inserted successfully"),
       { w with dbState :=
           { table := some
               { rows := t.rows ++ [{ id := t.nextId, name := n, age := a }],
                 nextId := t.nextId + 1 } } }) := by
  obtain ⟨db, ⟨tab⟩⟩ := w
  cases db with
  | none => simp at hdb
  | some u =>
    cases tab with
    | none => simp at ht
    | some t0 =>
      cases Option.some.inj ht
      simp [insert_data, appDb_execute_insert, hlen]

/-- On a working connection with `mytable` present but `name` beyond the
`VARCHAR(255)` bound, `insert_data` returns the error payload and leaves
the world unchanged. -/
theorem insert_data_too_long (w : World) (t : Table) (n : String) (a : Int)
    (hdb : w.db = some ()) (ht : w.dbState.table = some t) (hlen : ¬ n.length ≤ 255) :
    insert_data w none n a =
      (Except.ok (ApiResult.error ("Error inserting data: " ++ truncMsg)), w) := by
  obtain ⟨db, ⟨tab⟩⟩ := w
  cases db with
  | none => simp at hdb
  | some u =>
    cases tab with
    | none => simp at ht
    | some t0 =>
      cases Option.some.inj ht
      simp [insert_data, appDb_execute_insert, hlen]

/-- In a well-formed table the next `SERIAL` value is not among the
existing ids. -/
theorem nextId_not_mem (t : Table) (h : ∀ r ∈ t.rows, r.id < t.nextId) :
    t.nextId ∉ t.rows.map Record.id := by
  intro hmem
  rcases List.mem_map.mp hmem with ⟨r, hr, hid⟩
  exact Nat.lt_irrefl _ (hid ▸ h r hr)

/-- Appending the row assigned the next `SERIAL` id and advancing the
sequence preserves table well-formedness. -/
theorem WF_append_next (t : Table) (n : String) (a : Int) (h : t.WF) :
    Table.WF
      { rows := t.rows ++ [{ id := t.nextId, name := n, age := a }],
        nextId := t.nextId + 1 } := by
  obtain ⟨hlt, hnd⟩ := h
  constructor
  · intro r hr
    rcases List.mem_append.mp hr with hr | hr
    · exact Nat.lt_succ_of_lt (hlt r hr)
    · rcases List.mem_singleton.mp hr with rfl
      exact Nat.lt_succ_self _
  · rw [List.map_append]
    refine List.Nodup.append hnd (List.nodup_singleton _) ?_
    intro x hx hx'
    rcases List.mem_singleton.mp hx' with rfl
    exact nextId_not_mem t hlt hx

/-- Claim C4: ensure-schema is idempotent — on a working connection,
two consecutive `create_example_table` calls both return the same
success-message payload (never an error), and the table exists after
either call. -/
theorem C4_create_idempotent (w : World) (h : w.db = some ()) :
    (create_example_table w none).1
      = Except.ok (ApiResult.message "Example table created successfully") ∧
    (create_example_table w none).2.dbState.table.isSome = true ∧
    (create_example_table (create_example_table w none).2 none).1
      = Except.ok (ApiResult.message "Example table created successfully") ∧
    (create_example_table (create_example_table w none).2 none).2.dbState.table.isSome = true := by
  have h1 := create_example_table_ok w h
  have h2 := create_example_table_ok
    { w with dbState := { table := some (ensureTable w.dbState.table) } } h
  rw [h1, h2]
  exact ⟨rfl, rfl, rfl, rfl⟩

/-- Witness for C4 at a concrete world with no table yet. -/
theorem C4_witness :
    wNoTable.db = some () ∧
    ((create_example_table wNoTable none).1
       = Except.ok (ApiResult.message "Example table created successfully") ∧
     (create_example_table wNoTable none).2.dbState.table.isSome = true ∧
     (create_example_table (create_example_table wNoTable none).2 none).1
       = Except.ok (ApiResult.message "Example table created successfully") ∧
     (create_example_table (create_example_table wNoTable none).2 none).2.dbState.table.isSome = true) :=
  ⟨rfl, C4_create_idempotent wNoTable rfl⟩

/-- Claim C8: on a working connection, `get_data` after
`create_example_table` on a fresh database returns the empty sequence of
records (not an error payload), and in general a successful `get_data`
returns the full row list of the table. -/
theorem C8_empty_fetch (w w2 : World) (t : Table) (hdb : w.db = some ())
    (ht : w.dbState.table = none) (h2 : w2.db = some ())
    (ht2 : w2.dbState.table = some t) :
    create_example_table w none =
      (Except.ok (ApiResult.message "Example table created successfully"),
       { w with dbState := { table := some { rows := [], nextId := 1 } } }) ∧
    get_data { w with dbState := { table := some { rows := [], nextId := 1 } } } none =
      (Except.ok (ApiResult.rows []),
       { w with dbState := { table := some { rows := [], nextId := 1 } } }) ∧
    get_data w2 none = (Except.ok (ApiResult.rows t.rows), w2) := by
  refine ⟨?_, ?_, get_data_ok w2 t h2 ht2⟩
  · have h1 := create_example_table_ok w hdb
    rw [ht] at h1
    exact h1
  · exact get_data_ok _ { rows := [], nextId := 1 } hdb rfl

/-- Witness for C8 at concrete worlds. -/
theorem C8_witness :
    wNoTable.db = some () ∧ wNoTable.dbState.table = none ∧
    get_data { wNoTable with dbState := { table := some { rows := [], nextId := 1 } } } none =
      (Except.ok (ApiResult.rows []),
       { wNoTable with dbState := { table := some { rows := [], nextId := 1 } } }) :=
  ⟨rfl, rfl,
   (C8_empty_fetch wNoTable wReady { rows := [], nextId := 1 } rfl rfl rfl rfl).2.1⟩

/-- Claim C9: if the startup connection attempt failed and `app.db` was
never set, `close_db_connection` raises an unhandled `AttributeError`
instead of closing the handle or returning normally; a clean shutdown
(`close_db_connection` returning normally) is only possible when the
handle was set. -/
theorem C9_close_unset_raises (w w2 : World) (h : w.db = none)
    (h2 : (close_db_connection w2).1 = Except.ok ()) :
    (close_db_connection w).1 = Except.error (Exc.attributeError attrDbMsg) ∧
    w2.db = some () := by
  constructor
  · unfold close_db_connection
    rw [h]
  · unfold close_db_connection at h2
    cases h3 : w2.db with
    | none => rw [h3] at h2; simp at h2
    | some u => rfl

/-- Witness for C9 at concrete worlds. -/
theorem C9_witness :
    wUnset.db = none ∧
    (close_db_connection wReady).1 = Except.ok () ∧
    ((close_db_connection wUnset).1 = Except.error (Exc.attributeError attrDbMsg) ∧
     wReady.db = some ()) :=
  ⟨rfl, rfl, C9_close_unset_raises wUnset wReady rfl rfl⟩

/-- Claim C5: insert round-trip — on a working connection with a
well-formed table, a successful `insert_data "Alice" 30` followed by
`get_data` yields the old rows plus a record with name `"Alice"`, age
`30` and an id assigned by the database (the `SERIAL` value, not a
caller input) distinct from every id present before the insert. -/
theorem C5_round_trip (w : World) (t : Table) (hdb : w.db = some ())
    (ht : w.dbState.table = some t) (hwf : t.WF) :
    insert_data w none "Alice" 30 =
      (Except.ok (ApiResult.message "Data inserted successfully"),
       { w with dbState :=
           { table := some
               { rows := t.rows ++ [{ id := t.nextId, name := "Alice", age := 30 }],
                 nextId := t.nextId + 1 } } }) ∧
    get_data
        { w with dbState :=
            { table := some
                { rows := t.rows ++ [{ id := t.nextId, name := "Alice", age := 30 }],
                  nextId := t.nextId + 1 } } } none =
      (Except.ok (ApiResult.rows (t.rows ++ [{ id := t.nextId, name := "Alice", age := 30 }])),
       { w with dbState :=
           { table := some
               { rows := t.rows ++ [{ id := t.nextId, name := "Alice", age := 30 }],
                 nextId := t.nextId + 1 } } }) ∧
    ({ id := t.nextId, name := "Alice", age := 30 } : Record)
      ∈ t.rows ++ [{ id := t.nextId, name := "Alice", age := 30 }] ∧
    ∀ r ∈ t.rows, r.id ≠ t.nextId := by
  refine ⟨insert_data_success w t "Alice" 30 hdb ht (by decide),
    get_data_ok
      { w with dbState :=
          { table := some
              { rows := t.rows ++ [{ id := t.nextId, name := "Alice", age := 30 }],
                nextId := t.nextId + 1 } } }
      { rows := t.rows ++ [{ id := t.nextId, name := "Alice", age := 30 }],
        nextId := t.nextId + 1 } hdb rfl,
    List.mem_append_right _ (List.mem_singleton_self _), ?_⟩
  intro r hr
  exact Nat.ne_of_lt (hwf.1 r hr)

/-- Witness for C5 at a concrete world with an empty table. -/
theorem C5_witness :
    wReady.db = some () ∧
    wReady.dbState.table = some { rows := [], nextId := 1 } ∧
    Table.WF { rows := [], nextId := 1 } ∧
    insert_data wReady none "Alice" 30 =
      (Except.ok (ApiResult.message "Data inserted successfully"),
       { wReady with dbState :=
           { table := some
               { rows := [{ id := 1, name := "Alice", age := 30 }], nextId := 2 } } }) ∧
    ({ id := 1, name := "Alice", age := 30 } : Record)
      ∈ ([] : List Record) ++ [{ id := 1, name := "Alice", age := 30 }] :=
  ⟨rfl, rfl, by decide,
   (C5_round_trip wReady { rows := [], nextId := 1 } rfl rfl (by decide)).1,
   (C5_round_trip wReady { rows := [], nextId := 1 } rfl rfl (by decide)).2.2.1⟩

/-- Claim C6: atomicity of a failed insert — whenever `insert_data`
returns an error payload, the world (in particular the table contents)
is exactly as before the call. -/
theorem C6_failed_insert_frame (w : World) (fault : Option PgFault) (name : String)
    (age : Int) (s : String)
    (h : (insert_data w fault name age).1 = Except.ok (ApiResult.error s)) :
    (insert_data w fault name age).2 = w := by
  unfold insert_data at h ⊢
  cases hx : appDb_execute_insert w fault name age with
  | ok w1 => rw [hx] at h; simp at h
  | error e => cases e <;> rfl

/-- Witness for C6: an insert that fails because `mytable` does not
exist returns an error payload and leaves the world unchanged. -/
theorem C6_witness :
    (insert_data wNoTable none "Alice" 30).1
      = Except.ok (ApiResult.error ("Error inserting data: " ++ undefinedTableMsg)) ∧
    (insert_data wNoTable none "Alice" 30).2 = wNoTable :=
  ⟨rfl,
   C6_failed_insert_frame wNoTable none "Alice" 30
     ("Error inserting data: " ++ undefinedTableMsg) rfl⟩

/-- Claim C7: id distinctness — starting from any well-formed table on a
working connection, a sequence of successful `insert_data` calls adds
exactly one row per call, the new ids are pairwise distinct and distinct
from every pre-existing id, and table well-formedness (all ids pairwise
distinct) is preserved. -/
theorem C7_distinct_ids (ps : List (String × Int)) (w : World) (t : Table) (w1 : World)
    (hdb : w.db = some ()) (ht : w.dbState.table = some t) (hwf : t.WF)
    (h : insertAll w ps = some w1) :
    ∃ t1, w1.dbState.table = some t1 ∧ t1.WF ∧
      ∃ newRows, t1.rows = t.rows ++ newRows ∧ newRows.length = ps.length ∧
        (newRows.map Record.id).Nodup ∧
        ∀ r ∈ newRows, r.id ∉ t.rows.map Record.id := by
  induction ps generalizing w t w1 with
  | nil =>
    simp only [insertAll] at h
    injection h with h
    subst h
    refine ⟨t, ht, hwf, [], (List.append_nil _).symm, rfl, List.nodup_nil, ?_⟩
    intro r hr
    exact absurd hr (List.not_mem_nil r)
  | cons p rest ih =>
    obtain ⟨n, a⟩ := p
    simp only [insertAll] at h
    by_cases hlen : n.length ≤ 255
    · rw [insert_data_success w t n a hdb ht hlen] at h
      obtain ⟨t1, ht1, hwf1, newRows, heq, hlenr, hnd, hfresh⟩ :=
        ih { w with dbState :=
              { table := some
                  { rows := t.rows ++ [{ id := t.nextId, name := n, age := a }],
                    nextId := t.nextId + 1 } } }
          { rows := t.rows ++ [{ id := t.nextId, name := n, age := a }],
            nextId := t.nextId + 1 }
          w1 hdb rfl (WF_append_next t n a hwf) h
      refine ⟨t1, ht1, hwf1, { id := t.nextId, name := n, age := a } :: newRows, ?_, ?_, ?_, ?_⟩
      · rw [heq, List.append_assoc]
        rfl
      · simp [hlenr]
      · rw [List.map_cons, List.nodup_cons]
        refine ⟨?_, hnd⟩
        intro hmem
        rcases List.mem_map.mp hmem with ⟨r, hr, hid⟩
        have h2 := hfresh r hr
        rw [List.map_append] at h2
        exact h2 (List.mem_append_right _ (hid ▸ List.mem_singleton_self _))
      · intro r hr
        rcases List.mem_cons.mp hr with rfl | hr
        · exact nextId_not_mem t hwf.1
        · intro hmem
          have h2 := hfresh r hr
          rw [List.map_append] at h2
          exact h2 (List.mem_append_left _ hmem)
    · rw [insert_data_too_long w t n a hdb ht hlen] at h
      exact Option.noConfusion h

/-- Two sequential inserts used to witness C7. -/
def aliceBob : List (String × Int) := [("Alice", 30), ("Bob", 25)]

/-- The world reached from `wReady` after inserting Alice and Bob. -/
def wTwo : World :=
  { db := some (),
    dbState :=
      { table := some
          { rows := [{ id := 1, name := "Alice", age := 30 },
                     { id := 2, name := "Bob", age := 25 }],
            nextId := 3 } } }

/-- Witness for C7: two successful inserts from the empty table yield
two rows with distinct ids 1 and 2, and the resulting table is
well-formed. -/
theorem C7_witness :
    wReady.db = some () ∧
    wReady.dbState.table = some { rows := [], nextId := 1 } ∧
    Table.WF { rows := [], nextId := 1 } ∧
    insertAll wReady aliceBob = some wTwo ∧
    Table.WF { rows := [{ id := 1, name := "Alice", age := 30 },
                        { id := 2, name := "Bob", age := 25 }], nextId := 3 } := by
  refine ⟨rfl, rfl, by decide, by decide, ?_⟩
  obtain ⟨t1, ht1, hwf1, -⟩ :=
    C7_distinct_ids aliceBob wReady { rows := [], nextId := 1 } wTwo rfl rfl
      (by decide) (by decide)
  have ht1b : some ({ rows := [{ id := 1, name := "Alice", age := 30 },
                               { id := 2, name := "Bob", age := 25 }],
                      nextId := 3 } : Table) = some t1 := ht1
  have he := Option.some.inj ht1b
  rw [← he] at hwf1
  exact hwf1

/-- Inversion of a successful `INSERT` round-trip: it requires an
existing table and an in-bound name, and the result world differs from
the input only by the appended row and advanced sequence. -/
theorem appDb_execute_insert_ok_inv (w : World) (fault : Option PgFault) (name : String)
    (age : Int) (w1 : World)
    (h : appDb_execute_insert w fault name age = Except.ok w1) :
    ∃ t : Table, w.dbState.table = some t ∧ name.length ≤ 255 ∧
      w1 = { w with dbState :=
               { table := some
                   { rows := t.rows ++ [{ id := t.nextId, name := name, age := age }],
                     nextId := t.nextId + 1 } } } := by
  obtain ⟨db, ⟨tab⟩⟩ := w
  cases db with
  | none => exact Except.noConfusion h
  | some u =>
    cases fault with
    | some f => exact Except.noConfusion h
    | none =>
      cases tab with
      | none => exact Except.noConfusion h
      | some t =>
        by_cases hlen : name.length ≤ 255
        · simp only [appDb_execute_insert, hlen, if_true] at h
          exact ⟨t, rfl, hlen, (Except.ok.inj h).symm⟩
        · simp only [appDb_execute_insert, hlen, if_false] at h
          exact Except.noConfusion h

/-- Claim C10: frame conditions — `get_data` never changes the world
(whatever it returns or raises), and a successful `insert_data` changes
the world only by appending the one new row to the table and advancing
the id sequence; the handle and every pre-existing row are unchanged. -/
theorem C10_frame (w : World) (fault : Option PgFault) (name m : String) (age : Int) :
    (get_data w fault).2 = w ∧
    ((insert_data w fault name age).1 = Except.ok (ApiResult.message m) →
      ∃ t : Table, w.dbState.table = some t ∧
        (insert_data w fault name age).2 =
          { w with dbState :=
              { table := some
                  { rows := t.rows ++ [{ id := t.nextId, name := name, age := age }],
                    nextId := t.nextId + 1 } } }) := by
  constructor
  · unfold get_data
    cases hx : appDb_fetch w fault with
    | ok rs => rfl
    | error e => cases e <;> rfl
  · intro h
    unfold insert_data at h ⊢
    cases hx : appDb_execute_insert w fault name age with
    | ok w1 =>
      obtain ⟨t, ht, hlen, rfl⟩ := appDb_execute_insert_ok_inv w fault name age w1 hx
      exact ⟨t, ht, rfl⟩
    | error e =>
      rw [hx] at h
      cases e with
      | pgError k mm => simp at h
      | attributeError mm => simp at h
      | osError mm => simp at h

/-- Witness for C10 at a concrete world: fetching changes nothing and a
successful insert appends exactly the one row. -/
theorem C10_witness :
    (get_data wReady none).2 = wReady ∧
    (insert_data wReady none "Alice" 30).2 =
      { wReady with dbState :=
          { table := some
              { rows := [{ id := 1, name := "Alice", age := 30 }], nextId := 2 } } } := by
  refine ⟨(C10_frame wReady none "Alice" "Data inserted successfully" 30).1, ?_⟩
  obtain ⟨t, ht, hw⟩ :=
    (C10_frame wReady none "Alice" "Data inserted successfully" 30).2 rfl
  have htb : some ({ rows := [], nextId := 1 } : Table) = some t := ht
  have he := Option.some.inj htb
  rw [hw, ← he]
  rfl
